import Mathlib

/-!
Verification of the wakeup-music AppDaemon app (src/i1_wakeup_music.py).

Strings from the Python source are modelled as `List Char`; volumes and
time spans are modelled as exact rationals, and where the distinction
between exact and floating-point arithmetic is itself at issue (the ramp
termination value) the float semantics is modelled explicitly as IEEE
binary64 with integer mantissas; timer handles are `Option Nat`.  Each
section first transcribes a source function, then proves the
corresponding claims about it.
-/

/-! ## String primitives mirroring the Python built-ins used by the source -/

/-- Python `str.startswith(pat)`: `pat` is a prefix of the string. -/
def startsWith : List Char → List Char → Bool
  | [], _ => true
  | _ :: _, [] => false
  | p :: ps, c :: cs => p == c && startsWith ps cs

/-- Fuel-driven worker for `pyReplace`; the fuel is the length of the
string being scanned, which bounds the number of scan positions. -/
def pyReplaceFuel (pat rep : List Char) : Nat → List Char → List Char
  | 0, s => s
  | _ + 1, [] => []
  | fuel + 1, c :: cs =>
    if startsWith pat (c :: cs) then
      rep ++ pyReplaceFuel pat rep fuel (List.drop pat.length (c :: cs))
    else
      c :: pyReplaceFuel pat rep fuel cs

/-- Python `s.replace(pat, rep)`: replace every (non-overlapping,
left-to-right) occurrence of `pat` in `s` by `rep`.  The source only ever
calls it with non-empty patterns, so the empty pattern is a pass-through. -/
def pyReplace (s pat rep : List Char) : List Char :=
  if pat.isEmpty then s else pyReplaceFuel pat rep s.length s

/-! ## Source normalizer (`_normalize_media_source_for_ma`, lines 278-326) -/

/-- Transcription of `_normalize_media_source_for_ma`.  The Python guard
`if not media_source or not isinstance(media_source, str)` degenerates, for
string inputs, to the emptiness test. -/
def normalize_media_source_for_ma (media_source : List Char) : List Char :=
  if media_source.isEmpty then media_source
  else if startsWith ("spotify:playlist:".toList) media_source ||
      startsWith ("spotify://playlist:".toList) media_source then
    ("https://open.spotify.com/playlist/".toList) ++
      pyReplace (pyReplace (pyReplace media_source ("spotify:playlist:".toList) [])
        ("spotify://playlist:".toList) []) ("spotify://playlist/".toList) []
  else if startsWith ("spotify:album:".toList) media_source ||
      startsWith ("spotify://album:".toList) media_source then
    ("https://open.spotify.com/album/".toList) ++
      pyReplace (pyReplace (pyReplace media_source ("spotify:album:".toList) [])
        ("spotify://album:".toList) []) ("spotify://album/".toList) []
  else if startsWith ("spotify:artist:".toList) media_source ||
      startsWith ("spotify://artist:".toList) media_source then
    ("https://open.spotify.com/artist/".toList) ++
      pyReplace (pyReplace (pyReplace media_source ("spotify:artist:".toList) [])
        ("spotify://artist:".toList) []) ("spotify://artist/".toList) []
  else if startsWith ("spotify:track:".toList) media_source ||
      startsWith ("spotify://track:".toList) media_source then
    ("https://open.spotify.com/track/".toList) ++
      pyReplace (pyReplace (pyReplace media_source ("spotify:track:".toList) [])
        ("spotify://track:".toList) []) ("spotify://track/".toList) []
  else if startsWith ("spotify://playlist/".toList) media_source ||
      startsWith ("spotify://album/".toList) media_source ||
      startsWith ("spotify://artist/".toList) media_source ||
      startsWith ("spotify://track/".toList) media_source then
    if startsWith ("spotify://playlist/".toList) media_source then
      ("https://open.spotify.com/playlist/".toList) ++
        pyReplace media_source ("spotify://playlist/".toList) []
    else if startsWith ("spotify://album/".toList) media_source then
      ("https://open.spotify.com/album/".toList) ++
        pyReplace media_source ("spotify://album/".toList) []
    else if startsWith ("spotify://artist/".toList) media_source then
      ("https://open.spotify.com/artist/".toList) ++
        pyReplace media_source ("spotify://artist/".toList) []
    else if startsWith ("spotify://track/".toList) media_source then
      ("https://open.spotify.com/track/".toList) ++
        pyReplace media_source ("spotify://track/".toList) []
    else media_source
  else media_source

/-- The provider-scheme forms recognized by the branch tests of
`_normalize_media_source_for_ma`: `spotify:type:id`, `spotify://type:id`
and `spotify://type/id` for playlist/album/artist/track. -/
def recognized_spotify_form (x : List Char) : Bool :=
  startsWith ("spotify:playlist:".toList) x || startsWith ("spotify://playlist:".toList) x ||
  startsWith ("spotify:album:".toList) x || startsWith ("spotify://album:".toList) x ||
  startsWith ("spotify:artist:".toList) x || startsWith ("spotify://artist:".toList) x ||
  startsWith ("spotify:track:".toList) x || startsWith ("spotify://track:".toList) x ||
  startsWith ("spotify://playlist/".toList) x || startsWith ("spotify://album/".toList) x ||
  startsWith ("spotify://artist/".toList) x || startsWith ("spotify://track/".toList) x

/-- Every string beginning with the character `h` is left unchanged by the
normalizer: all the branch tests look for prefixes beginning with `s`. -/
theorem normalize_fixes_h_strings (l : List Char) :
    normalize_media_source_for_ma ('h' :: l) = 'h' :: l := rfl

/-- The normalizer either returns its input unchanged, or returns a string
beginning with `h` (a `https://open.spotify.com/...` URL). -/
theorem normalize_shape (ms : List Char) :
    normalize_media_source_for_ma ms = ms ∨
      ∃ l, normalize_media_source_for_ma ms = 'h' :: l := by
  obtain ⟨r, hr⟩ : ∃ r, normalize_media_source_for_ma ms = r := ⟨_, rfl⟩
  rw [hr]
  unfold normalize_media_source_for_ma at hr
  repeat' split at hr
  all_goals first
    | exact Or.inl hr.symm
    | exact Or.inr ⟨_, hr.symm⟩

/-- Claim C9: normalization for the universal (Standard) path is
idempotent on every string input, and every input matching none of the
recognized provider-scheme forms is returned unchanged, never rejected. -/
theorem normalize_media_source_idempotent_and_passthrough :
    (∀ x : List Char,
        normalize_media_source_for_ma (normalize_media_source_for_ma x) =
          normalize_media_source_for_ma x) ∧
    (∀ x : List Char, recognized_spotify_form x = false →
        normalize_media_source_for_ma x = x) := by
  constructor
  · intro x
    rcases normalize_shape x with h | ⟨l, h⟩
    · rw [h]
      exact h
    · rw [h]
      exact normalize_fixes_h_strings l
  · intro x h
    unfold recognized_spotify_form at h
    simp only [Bool.or_eq_false_iff] at h
    obtain ⟨⟨⟨⟨⟨⟨⟨⟨⟨⟨⟨h1, h2⟩, h3⟩, h4⟩, h5⟩, h6⟩, h7⟩, h8⟩, h9⟩, h10⟩, h11⟩, h12⟩ := h
    simp only [String.toList] at h1 h2 h3 h4 h5 h6 h7 h8 h9 h10 h11 h12
    unfold normalize_media_source_for_ma
    simp [h1, h2, h3, h4, h5, h6, h7, h8, h9, h10, h11, h12]

/-- Concrete instance of claim C9: a `spotify:playlist:` URI and an
untouched `library://` source. -/
theorem normalize_media_source_idempotent_witness :
    normalize_media_source_for_ma
        (normalize_media_source_for_ma ("spotify:playlist:37i9dQZF1DX".toList)) =
      normalize_media_source_for_ma ("spotify:playlist:37i9dQZF1DX".toList) ∧
    normalize_media_source_for_ma ("library://playlist/5".toList) =
      ("library://playlist/5".toList) :=
  ⟨normalize_media_source_idempotent_and_passthrough.1 ("spotify:playlist:37i9dQZF1DX".toList),
   normalize_media_source_idempotent_and_passthrough.2 ("library://playlist/5".toList)
     (by decide)⟩

/-! ## Stop scheduler (`_schedule_playback_stop`, lines 1111-1176) -/

/-- The externally visible scheduling decisions made by
`_schedule_playback_stop`: timer installations and immediate calls. -/
inductive StopAction where
  | scheduleFadeout (delay : ℚ)
  | immediateFadeout
  | scheduleStop (delay : ℚ)
  | immediateStop

/-- Transcription of `_schedule_playback_stop`.  `turnoff_time` and `now`
are wall-clock instants in seconds; `play_duration` is the configured
duration in seconds.  The fade-out duration is fixed at 60 seconds. -/
def schedule_playback_stop (now : ℚ) (turnoff_time : Option ℚ) (play_duration : ℚ) :
    List StopAction :=
  let fadeout_duration : ℚ := 60
  match turnoff_time with
  | some t =>
    let delay := t - now
    if delay > fadeout_duration then
      [StopAction.scheduleFadeout (delay - fadeout_duration), StopAction.scheduleStop delay]
    else if delay > 0 then
      [StopAction.immediateFadeout, StopAction.scheduleStop delay]
    else
      [StopAction.immediateStop]
  | none =>
    if play_duration > 0 then
      if play_duration > fadeout_duration then
        [StopAction.scheduleFadeout (play_duration - fadeout_duration),
         StopAction.scheduleStop play_duration]
      else
        [StopAction.scheduleStop play_duration]
    else
      []

/-- Claim C2: with a turnoff time, `delay = turnoff - now` decides between
scheduled fade-out plus stop (`delay > 60`), immediate fade-out plus
scheduled stop (`0 < delay ≤ 60`) and immediate stop (`delay ≤ 0`); with no
turnoff time, `play_duration > 60` schedules the fade-out at
`play_duration - 60`, any `play_duration > 0` schedules the stop at
`play_duration`, and `play_duration = 0` schedules nothing. -/
theorem schedule_playback_stop_spec (now t play_duration : ℚ) :
    (t - now > 60 → schedule_playback_stop now (some t) play_duration =
      [StopAction.scheduleFadeout (t - now - 60), StopAction.scheduleStop (t - now)]) ∧
    (0 < t - now → t - now ≤ 60 → schedule_playback_stop now (some t) play_duration =
      [StopAction.immediateFadeout, StopAction.scheduleStop (t - now)]) ∧
    (t - now ≤ 0 → schedule_playback_stop now (some t) play_duration =
      [StopAction.immediateStop]) ∧
    (play_duration > 60 → schedule_playback_stop now none play_duration =
      [StopAction.scheduleFadeout (play_duration - 60),
       StopAction.scheduleStop play_duration]) ∧
    (0 < play_duration → StopAction.scheduleStop play_duration ∈
      schedule_playback_stop now none play_duration) ∧
    (play_duration = 0 → schedule_playback_stop now none play_duration = []) := by
  refine ⟨?_, ?_, ?_, ?_, ?_, ?_⟩
  · intro h
    simp [schedule_playback_stop, h]
  · intro h1 h2
    have h60 : ¬ (t - now > 60) := not_lt.mpr h2
    simp [schedule_playback_stop, h60, h1]
  · intro h
    have h60 : ¬ (t - now > 60) := by linarith
    have h0 : ¬ (t - now > 0) := not_lt.mpr h
    simp [schedule_playback_stop, h60, h0]
  · intro h
    have h0 : play_duration > 0 := by linarith
    simp [schedule_playback_stop, h, h0]
  · intro h
    by_cases h60 : play_duration > 60 <;>
      simp [schedule_playback_stop, h, h60]
  · intro h
    simp [schedule_playback_stop, h]

/-- Concrete instance of claim C2: the spec's end-to-end scenario A
(`play_duration = 1500`, no turnoff: fade-out at 1440, stop at 1500) and a
turnoff 30 seconds away. -/
theorem schedule_playback_stop_witness :
    schedule_playback_stop 0 none 1500 =
      [StopAction.scheduleFadeout 1440, StopAction.scheduleStop 1500] ∧
    schedule_playback_stop 0 (some 30) 1500 =
      [StopAction.immediateFadeout, StopAction.scheduleStop 30] := by
  constructor
  · have h := (schedule_playback_stop_spec 0 30 1500).2.2.2.1 (by norm_num)
    have e : (1500 : ℚ) - 60 = 1440 := by norm_num
    rw [e] at h
    exact h
  · have h := ((schedule_playback_stop_spec 0 30 1500).2.1) (by norm_num) (by norm_num)
    have e : (30 : ℚ) - 0 = 30 := by norm_num
    rw [e] at h
    exact h

/-! ## Volume ramp engine (`_start_volume_ramp`, lines 1035-1100) -/

/-- One tick of the closure `ramp_step`: add the increment, then clamp to
`target_volume` on overshoot. -/
def ramp_tick (target_volume volume_increment current : ℚ) : ℚ :=
  let c := current + volume_increment
  if c > target_volume then target_volume else c

/-- The volume held by the ramp closure after `k` ticks; the increment is
`(target_volume - initial_volume) / ramp_steps` as computed in
`_start_volume_ramp`. -/
def ramp_volume (initial_volume target_volume : ℚ) (ramp_steps : ℕ) : ℕ → ℚ
  | 0 => initial_volume
  | k + 1 => ramp_tick target_volume ((target_volume - initial_volume) / ramp_steps)
      (ramp_volume initial_volume target_volume ramp_steps k)

/-- The interval between ramp ticks: `ramp_duration / ramp_steps`, clamped
up to the 0.1 second floor. -/
def ramp_step_duration (ramp_duration : ℚ) (ramp_steps : ℕ) : ℚ :=
  let d := ramp_duration / ramp_steps
  if d < 1/10 then 1/10 else d

/-- The ramp volume never exceeds the target. -/
theorem ramp_volume_le_target (initial_volume target_volume : ℚ) (ramp_steps : ℕ)
    (h1 : initial_volume ≤ target_volume) :
    ∀ k, ramp_volume initial_volume target_volume ramp_steps k ≤ target_volume := by
  intro k
  induction k with
  | zero => exact h1
  | succ k ih =>
    simp only [ramp_volume, ramp_tick]
    split
    · exact le_refl _
    · exact le_of_not_lt (by assumption)

/-- Closed form of the ramp volume below the step bound. -/
theorem ramp_volume_eq (initial_volume target_volume : ℚ) (ramp_steps : ℕ)
    (h1 : initial_volume ≤ target_volume) (hs : ramp_steps ≠ 0) :
    ∀ k, k ≤ ramp_steps → ramp_volume initial_volume target_volume ramp_steps k =
      initial_volume + k * ((target_volume - initial_volume) / ramp_steps) := by
  have hinc : 0 ≤ (target_volume - initial_volume) / ramp_steps :=
    div_nonneg (by linarith) (Nat.cast_nonneg _)
  intro k
  induction k with
  | zero => intro _; simp [ramp_volume]
  | succ k ih =>
    intro hk
    have hk' : k ≤ ramp_steps := Nat.le_of_succ_le hk
    have hcast : ((k : ℚ) + 1) ≤ (ramp_steps : ℚ) := by
      exact_mod_cast hk
    have hile : initial_volume + ((k : ℚ) + 1) * ((target_volume - initial_volume) / ramp_steps) ≤
        target_volume := by
      have hmul : ((k : ℚ) + 1) * ((target_volume - initial_volume) / ramp_steps) ≤
          (ramp_steps : ℚ) * ((target_volume - initial_volume) / ramp_steps) :=
        mul_le_mul_of_nonneg_right hcast hinc
      have hcancel : (ramp_steps : ℚ) * ((target_volume - initial_volume) / ramp_steps) =
          target_volume - initial_volume := by
        rw [mul_comm]
        exact div_mul_cancel₀ _ (Nat.cast_ne_zero.mpr hs)
      rw [hcancel] at hmul
      linarith
    simp only [ramp_volume, ramp_tick, ih hk']
    rw [if_neg]
    · push_cast
      ring
    · push_cast
      linarith

/-- Exact-arithmetic idealization of the ramp: for
`0 ≤ initial_volume ≤ target_volume`, positive `ramp_duration` and positive
`ramp_steps`, the tick volumes are monotonically non-decreasing, never
exceed `target_volume`, and after `ramp_steps` ticks the volume equals
`target_volume` exactly.  The program's float iteration refines the
monotonicity and bound but not the exact termination (see the IEEE
binary64 model below). -/
theorem ramp_monotone_bounded_reaches_target
    (initial_volume target_volume ramp_duration : ℚ) (ramp_steps : ℕ)
    (h0 : 0 ≤ initial_volume) (h1 : initial_volume ≤ target_volume)
    (hd : 0 < ramp_duration) (hs : 0 < ramp_steps) :
    (∀ k, ramp_volume initial_volume target_volume ramp_steps k ≤
      ramp_volume initial_volume target_volume ramp_steps (k + 1)) ∧
    (∀ k, ramp_volume initial_volume target_volume ramp_steps k ≤ target_volume) ∧
    ramp_volume initial_volume target_volume ramp_steps ramp_steps = target_volume := by
  have hinc : 0 ≤ (target_volume - initial_volume) / ramp_steps :=
    div_nonneg (by linarith) (Nat.cast_nonneg _)
  refine ⟨?_, ramp_volume_le_target _ _ _ h1, ?_⟩
  · intro k
    have hle := ramp_volume_le_target initial_volume target_volume ramp_steps h1 k
    simp only [ramp_volume, ramp_tick]
    split
    · exact hle
    · linarith
  · have h := ramp_volume_eq initial_volume target_volume ramp_steps h1
      (Nat.pos_iff_ne_zero.mp hs) ramp_steps (le_refl _)
    rw [h, mul_comm, div_mul_cancel₀ _ (Nat.cast_ne_zero.mpr (Nat.pos_iff_ne_zero.mp hs))]
    ring

/-! ## IEEE binary64 model of the ramp arithmetic

The ramp closure (lines 1057-1065) runs in Python floats, which are IEEE
binary64 values.  `Fp` represents a non-negative double as an integer
mantissa times a power of two; `roundPosRat` rounds an exact non-negative
rational to the nearest double with round-to-nearest, ties-to-even.  The
model covers the normal range, which contains every value of the ramp
computation at the claim's example. -/

/-- Integer power of two. -/
def pow2 : ℕ → ℤ
  | 0 => 1
  | n + 1 => 2 * pow2 n

/-- Round `a / b` (both positive) to the nearest integer, ties to even. -/
def rneInt (a b : ℤ) : ℤ :=
  let q := a.ediv b
  let r := a.emod b
  if 2 * r < b then q
  else if b < 2 * r then q + 1
  else if q.emod 2 = 0 then q else q + 1

/-- Normalize the positive value `(a / b) * 2^e` (by scaling `a` or `b`)
until the fraction lies in `[2^52, 2^53)`, then round the fraction to an
integer mantissa.  The fuel bounds the scaling steps; it is ample for
every value arising here. -/
def roundRatAux : ℕ → ℤ → ℤ → ℤ → ℤ × ℤ
  | 0, a, _, e => (a, e)
  | fuel + 1, a, b, e =>
    if a < b * 4503599627370496 then roundRatAux fuel (a * 2) b (e - 1)
    else if b * 9007199254740992 ≤ a then roundRatAux fuel a (b * 2) (e + 1)
    else (rneInt a b, e)

/-- A non-negative IEEE binary64 value, as mantissa `m` times `2^e`. -/
structure Fp where
  m : ℤ
  e : ℤ
deriving DecidableEq

/-- Round the exact non-negative rational `a / b` to the nearest double
(round-to-nearest, ties-to-even), renormalizing if rounding carries the
mantissa up to `2^53`. -/
def roundPosRat (a b : ℤ) : Fp :=
  if a = 0 then ⟨0, 0⟩
  else
    let p := roundRatAux 2200 a b 0
    if p.1 = 9007199254740992 then ⟨4503599627370496, p.2 + 1⟩ else ⟨p.1, p.2⟩

/-- Round the exact value `a * 2^e` (with `a ≥ 0`) to the nearest double. -/
def fpOfScaled (a e : ℤ) : Fp :=
  if 0 ≤ e then roundPosRat (a * pow2 e.toNat) 1
  else roundPosRat a (pow2 (-e).toNat)

/-- Float subtraction: the exact difference, rounded to a double. -/
def fpSub (x y : Fp) : Fp :=
  if x.e ≤ y.e then fpOfScaled (x.m - y.m * pow2 (y.e - x.e).toNat) x.e
  else fpOfScaled (x.m * pow2 (x.e - y.e).toNat - y.m) y.e

/-- Float addition: the exact sum, rounded to a double. -/
def fpAdd (x y : Fp) : Fp :=
  if x.e ≤ y.e then fpOfScaled (x.m + y.m * pow2 (y.e - x.e).toNat) x.e
  else fpOfScaled (x.m * pow2 (x.e - y.e).toNat + y.m) y.e

/-- Float division of a double by a positive integer (the Python
`volume_diff / self.ramp_steps`): the exact quotient, rounded. -/
def fpDivInt (x : Fp) (n : ℤ) : Fp :=
  if 0 ≤ x.e then roundPosRat (x.m * pow2 x.e.toNat) n
  else roundPosRat x.m (n * pow2 (-x.e).toNat)

/-- Value comparison `x < y` of two doubles. -/
def fpLt (x y : Fp) : Bool :=
  if x.e ≤ y.e then
    if x.m < y.m * pow2 (y.e - x.e).toNat then true else false
  else
    if x.m * pow2 (x.e - y.e).toNat < y.m then true else false

/-- One float tick of the ramp closure: `current_volume +=
volume_increment`, clamped to `target_volume` on overshoot only
(lines 1060-1065). -/
def ramp_tick_double (target inc cur : Fp) : Fp :=
  let c := fpAdd cur inc
  if fpLt target c then target else c

/-- The double held by the ramp closure after `k` ticks under IEEE
binary64 arithmetic. -/
def ramp_volume_double (initial target inc : Fp) : ℕ → Fp
  | 0 => initial
  | k + 1 => ramp_tick_double target inc (ramp_volume_double initial target inc k)

/-- The double nearest the literal `0.1`. -/
def fp_tenth : Fp := roundPosRat 1 10

/-- The double of the literal `0.5` (exact). -/
def fp_half : Fp := roundPosRat 1 2

/-- The float increment `(target_volume - initial_volume) / ramp_steps`
at the example `initial = 0.1`, `target = 0.5`, `ramp_steps = 10`. -/
def fp_increment : Fp := fpDivInt (fpSub fp_half fp_tenth) 10

set_option maxRecDepth 40000 in
/-- Claim C3, counterexample: under the program's IEEE-double arithmetic
the claim's own example (`initial = 0.1`, `target = 0.5`,
`ramp_steps = 10`) ends after 10 ticks at `0.5 - 2^-53` (mantissa times
exponent `9007199254740990 * 2^-54`), one unit in the last place below
`target_volume`, because the clamp fires only on overshoot. -/
theorem ramp_exact_termination_counterexample :
    ramp_volume_double fp_tenth fp_half fp_increment 10 = ⟨9007199254740990, -54⟩ ∧
    ramp_volume_double fp_tenth fp_half fp_increment 10 ≠ fp_half := by
  constructor
  · decide
  · decide

set_option maxRecDepth 40000 in
/-- Claim C3 (amended): with `0 ≤ initial_volume ≤ target_volume`,
positive `ramp_duration` and positive `ramp_steps`, the applied ramp
volumes are monotonically non-decreasing and never exceed
`target_volume`, and in exact real arithmetic the volume after
`ramp_steps` ticks equals `target_volume` exactly; under the program's
IEEE-double arithmetic the final volume can instead stop one unit in the
last place below the target, as at the example, where the 10th tick
yields `0.5 - 2^-53` rather than `0.5`. -/
theorem ramp_monotone_bounded_amended
    (initial_volume target_volume ramp_duration : ℚ) (ramp_steps : ℕ)
    (h0 : 0 ≤ initial_volume) (h1 : initial_volume ≤ target_volume)
    (hd : 0 < ramp_duration) (hs : 0 < ramp_steps) :
    ((∀ k, ramp_volume initial_volume target_volume ramp_steps k ≤
      ramp_volume initial_volume target_volume ramp_steps (k + 1)) ∧
    (∀ k, ramp_volume initial_volume target_volume ramp_steps k ≤ target_volume) ∧
    ramp_volume initial_volume target_volume ramp_steps ramp_steps = target_volume) ∧
    (ramp_volume_double fp_tenth fp_half fp_increment 10 = ⟨9007199254740990, -54⟩ ∧
     ramp_volume_double fp_tenth fp_half fp_increment 10 ≠ fp_half) := by
  refine ⟨ramp_monotone_bounded_reaches_target initial_volume target_volume ramp_duration
    ramp_steps h0 h1 hd hs, ?_, ?_⟩
  · decide
  · decide

/-- Concrete instance of the amended claim C3: the example
`initial = 0.1`, `target = 0.5`, `ramp_duration = 300`,
`ramp_steps = 10`. -/
theorem ramp_amended_witness :
    ((∀ k, ramp_volume (1/10) (1/2) 10 k ≤ ramp_volume (1/10) (1/2) 10 (k + 1)) ∧
    (∀ k, ramp_volume (1/10) (1/2) 10 k ≤ 1/2) ∧
    ramp_volume (1/10) (1/2) 10 10 = 1/2) ∧
    (ramp_volume_double fp_tenth fp_half fp_increment 10 = ⟨9007199254740990, -54⟩ ∧
     ramp_volume_double fp_tenth fp_half fp_increment 10 ≠ fp_half) :=
  ramp_monotone_bounded_amended (1/10) (1/2) 300 10
    (by norm_num) (by norm_num) (by norm_num) (by norm_num)

/-! ## Volume fade-out engine (`_start_volume_fadeout`, lines 1178-1273) -/

/-- The fade-out starting volume: the `volume_level` attribute reported by
the first configured media player, or `target_volume` when it is
unreadable (lines 1190-1201). -/
def fadeout_start_volume (volume_level : Option ℚ) (target_volume : ℚ) : ℚ :=
  volume_level.getD target_volume

/-- Set-up phase of `_start_volume_fadeout`: computes the starting volume
and the per-step decrement, or `none` when the fade-out is skipped because
the starting volume is already at or below the 0.01 floor
(`volume_diff <= 0`, lines 1208-1213). -/
def start_volume_fadeout (volume_level : Option ℚ) (target_volume : ℚ)
    (fadeout_steps : ℕ) : Option (ℚ × ℚ) :=
  if fadeout_start_volume volume_level target_volume - 1/100 ≤ 0 then none
  else some (fadeout_start_volume volume_level target_volume,
    (fadeout_start_volume volume_level target_volume - 1/100) / fadeout_steps)

/-- One tick of the closure `fadeout_step`: subtract the decrement, then
clamp up to the floor volume on undershoot. -/
def fadeout_tick (target_fadeout_volume volume_decrement current : ℚ) : ℚ :=
  let c := current - volume_decrement
  if c < target_fadeout_volume then target_fadeout_volume else c

/-- The volume held by the fade-out closure after `k` ticks, starting from
`start` with decrement `volume_decrement`; the floor is fixed at 0.01. -/
def fadeout_volume (start volume_decrement : ℚ) : ℕ → ℚ
  | 0 => start
  | k + 1 => fadeout_tick (1/100) volume_decrement (fadeout_volume start volume_decrement k)

/-- The fade-out volume never goes below the 0.01 floor, as long as it
starts at or above it. -/
theorem fadeout_volume_ge_floor (start volume_decrement : ℚ) (h : 1/100 ≤ start) :
    ∀ k, 1/100 ≤ fadeout_volume start volume_decrement k := by
  intro k
  induction k with
  | zero => exact h
  | succ k ih =>
    simp only [fadeout_volume, fadeout_tick]
    split
    · exact le_refl _
    · exact le_of_not_lt (by assumption)

/-- Claim C7: the fade-out starts from the first device's reported volume
(falling back to `target_volume`); when that volume is at or below the 0.01
floor the fade-out is a no-op, and otherwise the tick volumes are
monotonically non-increasing and never fall below 0.01. -/
theorem fadeout_noop_or_monotone_floored (volume_level : Option ℚ)
    (target_volume : ℚ) (fadeout_steps : ℕ) :
    (start_volume_fadeout volume_level target_volume fadeout_steps = none ↔
      fadeout_start_volume volume_level target_volume ≤ 1/100) ∧
    (∀ cur dec,
      start_volume_fadeout volume_level target_volume fadeout_steps = some (cur, dec) →
      (∀ k, fadeout_volume cur dec (k + 1) ≤ fadeout_volume cur dec k) ∧
      (∀ k, 1/100 ≤ fadeout_volume cur dec k)) := by
  constructor
  · constructor
    · intro hn
      by_cases hc : fadeout_start_volume volume_level target_volume - 1/100 ≤ 0
      · linarith
      · unfold start_volume_fadeout at hn
        rw [if_neg hc] at hn
        exact absurd hn (by simp)
    · intro hle
      unfold start_volume_fadeout
      rw [if_pos (by linarith)]
  · intro cur dec hsome
    unfold start_volume_fadeout at hsome
    split at hsome
    · exact absurd hsome (by simp)
    · have hlt : 0 < fadeout_start_volume volume_level target_volume - 1/100 :=
        lt_of_not_le (by assumption)
      have hcur : cur = fadeout_start_volume volume_level target_volume := by
        injection hsome with h
        injection h with h1 h2
        exact h1.symm
      have hdec : dec = (fadeout_start_volume volume_level target_volume - 1/100) /
          fadeout_steps := by
        injection hsome with h
        injection h with h1 h2
        exact h2.symm
      have hdec0 : 0 ≤ dec := by
        rw [hdec]
        exact div_nonneg (le_of_lt hlt) (Nat.cast_nonneg _)
      have hcur0 : 1/100 ≤ cur := by
        rw [hcur]
        linarith
      refine ⟨?_, fadeout_volume_ge_floor cur dec hcur0⟩
      intro k
      have hfloor := fadeout_volume_ge_floor cur dec hcur0 k
      simp only [fadeout_volume, fadeout_tick]
      split
      · exact hfloor
      · linarith

/-- Concrete instance of claim C7: starting volume 0.3 over 15 steps stays
monotonically non-increasing and never below 0.01; starting volume 0.005
is a no-op. -/
theorem fadeout_witness :
    ((∀ k, fadeout_volume (3/10) ((3/10 - 1/100) / 15) (k + 1) ≤
        fadeout_volume (3/10) ((3/10 - 1/100) / 15) k) ∧
      (∀ k, 1/100 ≤ fadeout_volume (3/10) ((3/10 - 1/100) / 15) k)) ∧
    start_volume_fadeout (some (1/200)) (1/2) 15 = none := by
  constructor
  · refine (fadeout_noop_or_monotone_floored (some (3/10)) (1/2) 15).2
      (3/10) ((3/10 - 1/100) / 15) ?_
    unfold start_volume_fadeout fadeout_start_volume
    rw [if_neg]
    · norm_num
    · norm_num
  · exact (fadeout_noop_or_monotone_floored (some (1/200)) (1/2) 15).1.mpr
      (by norm_num [fadeout_start_volume])

/-! ## Playback verifier (`_verify_playback_started`, lines 648-712, and the
retry flow `_verify_and_start_ramp` / `_verify_and_start_ramp_retry`,
lines 595-646) -/

/-- Device states the verifier accepts outright (line 671). -/
def verifier_active_states : List String := ["playing", "buffering", "loading"]

/-- Device states a Music Assistant player must avoid to be optimistically
accepted (line 679). -/
def verifier_stopped_states : List String := ["idle", "off", "unavailable", "unknown"]

/-- Transcription of `_verify_playback_started`: walk `active_media_players`
in order; a device in an active state, or a Music Assistant device outside
the stopped states, makes verification succeed; otherwise it fails.
`get_state` is the device-state query and `is_ma_player` the (memoized)
capability classification. -/
def verify_playback_started (get_state : String → String) (is_ma_player : String → Bool) :
    List String → Bool
  | [] => false
  | p :: rest =>
    if get_state p ∈ verifier_active_states then true
    else if is_ma_player p = true ∧ get_state p ∉ verifier_stopped_states then true
    else verify_playback_started get_state is_ma_player rest

/-- The session-visible outcome of the verification flow. -/
structure VerifyOutcome where
  attempts : ℕ
  ramp_started : Bool
  error_state : Bool
  is_playing : Bool

/-- Transcription of `_verify_and_start_ramp` composed with
`_verify_and_start_ramp_retry`: the first verification uses the device
states at the first delay (`get_state1`), the retry those at the second
delay (`get_state2`); a second failure sets `error_state` and clears
`is_playing`. -/
def verify_and_start_ramp (get_state1 get_state2 : String → String)
    (is_ma_player : String → Bool) (active_media_players : List String)
    (error_state is_playing : Bool) : VerifyOutcome :=
  if verify_playback_started get_state1 is_ma_player active_media_players then
    ⟨1, true, error_state, is_playing⟩
  else if verify_playback_started get_state2 is_ma_player active_media_players then
    ⟨2, true, error_state, is_playing⟩
  else
    ⟨2, false, true, false⟩

/-- Success of one verification pass is existence of a qualifying device. -/
theorem verify_playback_started_iff (get_state : String → String)
    (is_ma_player : String → Bool) (l : List String) :
    verify_playback_started get_state is_ma_player l = true ↔
      ∃ p ∈ l, get_state p ∈ verifier_active_states ∨
        (is_ma_player p = true ∧ get_state p ∉ verifier_stopped_states) := by
  induction l with
  | nil => simp [verify_playback_started]
  | cons p rest ih =>
    by_cases h1 : get_state p ∈ verifier_active_states
    · simp [verify_playback_started, h1]
    · by_cases h2 : is_ma_player p = true ∧ get_state p ∉ verifier_stopped_states
      · simp [verify_playback_started, h1, h2]
      · simp [verify_playback_started, h1, h2, ih]

/-- Claim C4: verification succeeds exactly when some active device is in
an active state or is a ManagedService device outside the stopped states;
it is attempted at most twice, only once when the first pass succeeds, and
a second failure sets `error_state` and clears `is_playing` without
starting the ramp. -/
theorem verify_playback_spec (get_state1 get_state2 : String → String)
    (is_ma_player : String → Bool) (active_media_players : List String)
    (error_state is_playing : Bool) :
    (verify_playback_started get_state1 is_ma_player active_media_players = true ↔
      ∃ p ∈ active_media_players, get_state1 p ∈ verifier_active_states ∨
        (is_ma_player p = true ∧ get_state1 p ∉ verifier_stopped_states)) ∧
    (verify_and_start_ramp get_state1 get_state2 is_ma_player active_media_players
        error_state is_playing).attempts ≤ 2 ∧
    (verify_playback_started get_state1 is_ma_player active_media_players = true →
      (verify_and_start_ramp get_state1 get_state2 is_ma_player active_media_players
        error_state is_playing).attempts = 1) ∧
    (verify_playback_started get_state1 is_ma_player active_media_players = false →
      verify_playback_started get_state2 is_ma_player active_media_players = false →
      verify_and_start_ramp get_state1 get_state2 is_ma_player active_media_players
        error_state is_playing = ⟨2, false, true, false⟩) := by
  refine ⟨verify_playback_started_iff _ _ _, ?_, ?_, ?_⟩
  · unfold verify_and_start_ramp
    split
    · exact Nat.le_of_lt Nat.one_lt_two
    · split <;> exact le_refl 2
  · intro h
    unfold verify_and_start_ramp
    rw [if_pos h]
  · intro h1 h2
    unfold verify_and_start_ramp
    rw [if_neg (by simp [h1]), if_neg (by simp [h2])]

/-- Concrete instance of claim C4: a standard player reported `paused` at
both passes fails verification twice and abandons the session, while a
playing player verifies in one attempt. -/
theorem verify_playback_witness :
    (verify_and_start_ramp (fun _ => "paused") (fun _ => "paused") (fun _ => false)
      ["media_player.bedroom"] false true = ⟨2, false, true, false⟩) ∧
    (verify_and_start_ramp (fun _ => "playing") (fun _ => "playing") (fun _ => false)
      ["media_player.bedroom"] false true).attempts = 1 := by
  constructor
  · exact (verify_playback_spec (fun _ => "paused") (fun _ => "paused") (fun _ => false)
      ["media_player.bedroom"] false true).2.2.2 (by decide) (by decide)
  · exact (verify_playback_spec (fun _ => "playing") (fun _ => "playing") (fun _ => false)
      ["media_player.bedroom"] false true).2.2.1 (by decide)

/-! ## Playback starter (`_play_music_on_player`, lines 714-1033) -/

/-- Python `pat in s`: substring membership. -/
def containsSub (pat : List Char) : List Char → Bool
  | [] => startsWith pat []
  | c :: cs => startsWith pat (c :: cs) || containsSub pat cs

/-- Python `str.lower()` restricted to the ASCII messages the source
inspects. -/
def pyLower (s : List Char) : List Char := s.map Char.toLower

/-- The error taxonomy of the spec: the four diagnostic classes the
starter's except-branch distinguishes when building its log message. -/
inductive ErrClass where
  | authentication
  | contentUnavailable
  | unsupportedFeature
  | other

/-- Transcription of the message-selection chain of the except-branch of
`_play_music_on_player` (lines 982-1023): the class is keyed on the player
kind, the exception type name, and lowercase substrings of the message. -/
def classify_play_error (is_ma_player is_youtube_music : Bool)
    (error_type error_msg : List Char) : ErrClass :=
  if is_ma_player then
    if error_type == ("NotImplementedError".toList) ||
        containsSub ("not implemented".toList) error_msg then
      ErrClass.unsupportedFeature
    else if containsSub ("authentication".toList) error_msg ||
        containsSub ("unauthorized".toList) error_msg then
      ErrClass.authentication
    else if containsSub ("not found".toList) error_msg ||
        containsSub ("unavailable".toList) error_msg then
      ErrClass.contentUnavailable
    else ErrClass.other
  else if is_youtube_music then
    if containsSub ("authentication".toList) error_msg ||
        containsSub ("unauthorized".toList) error_msg ||
        (containsSub ("token".toList) error_msg &&
          (containsSub ("expired".toList) error_msg ||
           containsSub ("invalid".toList) error_msg)) ||
        (containsSub ("login".toList) error_msg &&
          (containsSub ("required".toList) error_msg ||
           containsSub ("failed".toList) error_msg)) then
      ErrClass.authentication
    else if containsSub ("not found".toList) error_msg ||
        containsSub ("unavailable".toList) error_msg then
      ErrClass.contentUnavailable
    else if containsSub ("not supported".toList) error_msg ||
        containsSub ("unsupported".toList) error_msg then
      ErrClass.unsupportedFeature
    else ErrClass.other
  else ErrClass.other

/-- Source constant `max_retries = 2` (line 738): two retries on top of the
first attempt. -/
def play_max_retries : ℕ := 2

/-- The retry loop of `_play_music_on_player`.  `attempt k` is the outcome
of the whole per-attempt sequence (set volume, normalize, play request) on
the k-th attempt: `none` for success, `some (type, message)` for the raised
exception.  Returns (result, attempts made, classes of logged failures).
The fuel argument starts above `play_max_retries` so the loop guard
`retry_count <= max_retries` is always the deciding test. -/
def play_loop (is_ma_player is_youtube_music : Bool)
    (attempt : ℕ → Option (List Char × List Char)) :
    ℕ → ℕ → Bool × ℕ × List ErrClass
  | retry_count, 0 => (false, retry_count, [])
  | retry_count, fuel + 1 =>
    match attempt retry_count with
    | none => (true, retry_count + 1, [])
    | some (error_type, error_msg) =>
      let cls := classify_play_error is_ma_player is_youtube_music error_type
        (pyLower error_msg)
      if retry_count + 1 ≤ play_max_retries then
        let rest := play_loop is_ma_player is_youtube_music attempt (retry_count + 1) fuel
        (rest.1, rest.2.1, cls :: rest.2.2)
      else
        (false, retry_count + 1, [cls])

/-- Transcription of `_play_music_on_player` at the granularity of
attempts: the loop starts at `retry_count = 0` with enough fuel for the
three admissible attempts. -/
def play_music_on_player (is_ma_player is_youtube_music : Bool)
    (attempt : ℕ → Option (List Char × List Char)) : Bool × ℕ × List ErrClass :=
  play_loop is_ma_player is_youtube_music attempt 0 (play_max_retries + 1)

/-- When the first attempt fails and the second succeeds, two attempts
are made. -/
theorem play_attempts_one (f g : Bool) (a : ℕ → Option (List Char × List Char))
    (h0 : (a 0).isNone = false) (h1 : (a 1).isNone = true) :
    (play_music_on_player f g a).2.1 = 2 := by
  rcases ha0 : a 0 with _ | ⟨t0, m0⟩
  · rw [ha0] at h0
    simp at h0
  · rcases ha1 : a 1 with _ | ⟨t1, m1⟩
    · simp [play_music_on_player, play_loop, play_max_retries, ha0, ha1]
    · rw [ha1] at h1
      simp at h1

/-- When the first two attempts fail and the third succeeds, three
attempts are made. -/
theorem play_attempts_two (f g : Bool) (a : ℕ → Option (List Char × List Char))
    (h0 : (a 0).isNone = false) (h1 : (a 1).isNone = false) (h2 : (a 2).isNone = true) :
    (play_music_on_player f g a).2.1 = 3 := by
  rcases ha0 : a 0 with _ | ⟨t0, m0⟩
  · rw [ha0] at h0
    simp at h0
  · rcases ha1 : a 1 with _ | ⟨t1, m1⟩
    · rw [ha1] at h1
      simp at h1
    · rcases ha2 : a 2 with _ | ⟨t2, m2⟩
      · simp [play_music_on_player, play_loop, play_max_retries, ha0, ha1, ha2]
      · rw [ha2] at h2
        simp at h2

/-- Claim C8: the starter makes at most 3 attempts, succeeds exactly when
one of the first 3 attempts succeeds, stops at the first success, fails
only after the 3rd failed attempt, and the error classification never
influences the result or the number of attempts. -/
theorem play_music_on_player_retry_spec (is_ma_player is_youtube_music : Bool)
    (attempt : ℕ → Option (List Char × List Char)) :
    (play_music_on_player is_ma_player is_youtube_music attempt).2.1 ≤ 3 ∧
    ((play_music_on_player is_ma_player is_youtube_music attempt).1 = true ↔
      ((attempt 0).isNone ∨ (attempt 1).isNone ∨ (attempt 2).isNone)) ∧
    ((attempt 0).isNone = true →
      (play_music_on_player is_ma_player is_youtube_music attempt).2.1 = 1) ∧
    ((play_music_on_player is_ma_player is_youtube_music attempt).1 = false →
      (play_music_on_player is_ma_player is_youtube_music attempt).2.1 = 3) ∧
    (∀ is_ma2 is_yt2 : Bool, ∀ attempt2 : ℕ → Option (List Char × List Char),
      (∀ k, (attempt k).isNone = (attempt2 k).isNone) →
      (play_music_on_player is_ma_player is_youtube_music attempt).1 =
        (play_music_on_player is_ma2 is_yt2 attempt2).1 ∧
      (play_music_on_player is_ma_player is_youtube_music attempt).2.1 =
        (play_music_on_player is_ma2 is_yt2 attempt2).2.1) := by
  have main : ∀ (f g : Bool) (a : ℕ → Option (List Char × List Char)),
      (play_music_on_player f g a).2.1 ≤ 3 ∧
      ((play_music_on_player f g a).1 = true ↔
        ((a 0).isNone ∨ (a 1).isNone ∨ (a 2).isNone)) ∧
      ((a 0).isNone = true → (play_music_on_player f g a).2.1 = 1) ∧
      ((play_music_on_player f g a).1 = false → (play_music_on_player f g a).2.1 = 3) := by
    intro f g a
    rcases h0 : a 0 with _ | ⟨t0, m0⟩
    · simp [play_music_on_player, play_loop, play_max_retries, h0]
    · rcases h1 : a 1 with _ | ⟨t1, m1⟩
      · simp [play_music_on_player, play_loop, play_max_retries, h0, h1]
      · rcases h2 : a 2 with _ | ⟨t2, m2⟩
        · simp [play_music_on_player, play_loop, play_max_retries, h0, h1, h2]
        · simp [play_music_on_player, play_loop, play_max_retries, h0, h1, h2]
  refine ⟨(main _ _ _).1, (main _ _ _).2.1, (main _ _ _).2.2.1, (main _ _ _).2.2.2, ?_⟩
  intro f2 g2 a2 hsame
  have r1 := (main is_ma_player is_youtube_music attempt).2.1
  have r2 := (main f2 g2 a2).2.1
  have hres : (play_music_on_player is_ma_player is_youtube_music attempt).1 =
      (play_music_on_player f2 g2 a2).1 := by
    rcases hb : (play_music_on_player f2 g2 a2).1 with _ | _
    · rcases hc : (play_music_on_player is_ma_player is_youtube_music attempt).1 with _ | _
      · rfl
      · exfalso
        have := r1.mp hc
        rw [hsame 0, hsame 1, hsame 2] at this
        have := r2.mpr this
        rw [hb] at this
        exact Bool.false_ne_true this
    · have := r2.mp hb
      rw [← hsame 0, ← hsame 1, ← hsame 2] at this
      exact r1.mpr this
  refine ⟨hres, ?_⟩
  rcases hb : (play_music_on_player f2 g2 a2).1 with _ | _
  · have hfail1 : (play_music_on_player is_ma_player is_youtube_music attempt).1 = false := by
      rw [hres, hb]
    rw [(main is_ma_player is_youtube_music attempt).2.2.2 hfail1, (main f2 g2 a2).2.2.2 hb]
  · rcases ha0 : (attempt 0).isNone with _ | _
    · rcases ha1 : (attempt 1).isNone with _ | _
      · rcases ha2 : (attempt 2).isNone with _ | _
        · exfalso
          have htrue : (play_music_on_player is_ma_player is_youtube_music attempt).1 = true := by
            rw [hres, hb]
          have := r1.mp htrue
          simp [ha0, ha1, ha2] at this
        · have hb2 : (a2 2).isNone = true := by rw [← hsame 2]; exact ha2
          have hb0 : (a2 0).isNone = false := by rw [← hsame 0]; exact ha0
          have hb1 : (a2 1).isNone = false := by rw [← hsame 1]; exact ha1
          rw [play_attempts_two is_ma_player is_youtube_music attempt ha0 ha1 ha2,
            play_attempts_two f2 g2 a2 hb0 hb1 hb2]
      · have hb0 : (a2 0).isNone = false := by rw [← hsame 0]; exact ha0
        have hb1 : (a2 1).isNone = true := by rw [← hsame 1]; exact ha1
        rw [play_attempts_one is_ma_player is_youtube_music attempt ha0 ha1,
          play_attempts_one f2 g2 a2 hb0 hb1]
    · have hb0 : (a2 0).isNone = true := by rw [← hsame 0]; exact ha0
      rw [(main is_ma_player is_youtube_music attempt).2.2.1 ha0, (main f2 g2 a2).2.2.1 hb0]

/-- Concrete instance of claim C8: a device failing all attempts with a
content error makes exactly 3 attempts; a first-attempt success makes 1;
the result is untouched by the classification flags. -/
theorem play_music_on_player_retry_witness :
    (play_music_on_player false false
      (fun _ => some ("HomeAssistantError".toList, "Media not found".toList))).2.1 = 3 ∧
    (play_music_on_player true false (fun _ => none)).2.1 = 1 ∧
    (play_music_on_player true false
        (fun _ => some ("HomeAssistantError".toList, "Media not found".toList))).1 =
      (play_music_on_player false true
        (fun _ => some ("HomeAssistantError".toList, "Media not found".toList))).1 :=
  ⟨(play_music_on_player_retry_spec false false
      (fun _ => some ("HomeAssistantError".toList, "Media not found".toList))).2.2.2.1
      (by decide),
   (play_music_on_player_retry_spec true false (fun _ => none)).2.2.1 rfl,
   ((play_music_on_player_retry_spec true false
      (fun _ => some ("HomeAssistantError".toList, "Media not found".toList))).2.2.2.2
      false true
      (fun _ => some ("HomeAssistantError".toList, "Media not found".toList))
      (fun _ => rfl)).1⟩

/-! ## Wake-event start (`_start_wakeup_music`, lines 518-581) -/

/-- The mutable session state of the app: the `PlaybackSession` flags and
the four timer-handle roles (`self.is_playing`, `self.error_state`,
`self.active_media_players`, `self.active_timer`,
`self.current_volume_handle`, `self.stop_playback_handle`,
`self.fadeout_volume_handle`). -/
structure AppState where
  is_playing : Bool
  error_state : Bool
  active_media_players : List String
  active_timer : Option ℕ
  current_volume_handle : Option ℕ
  stop_playback_handle : Option ℕ
  fadeout_volume_handle : Option ℕ

/-- The externally visible result of one `_start_wakeup_music` call: the
resulting state, whether the per-device starter was run over the
configured players, and whether verification was scheduled (`run_in`
of `_verify_and_start_ramp`, line 570). -/
structure StartOutcome where
  state : AppState
  players_attempted : Bool
  verification_scheduled : Bool

/-- Transcription of `_start_wakeup_music`.  The guard returns immediately
when `is_playing` is set; otherwise the session flags are set, the stop and
fade-out handles are cancelled, every configured player is started through
`_play_music_on_player` (collecting the successes in order into
`active_media_players`), and either verification is scheduled (some player
succeeded) or the session aborts with `error_state` set.  `attempt_of p`
is the per-attempt outcome oracle of player `p` (section on the playback
starter). -/
def start_wakeup_music (is_ma_player : String → Bool) (is_youtube_music : Bool)
    (attempt_of : String → ℕ → Option (List Char × List Char))
    (media_players : List String) (s : AppState) : StartOutcome :=
  if s.is_playing then
    ⟨s, false, false⟩
  else
    let s1 : AppState :=
      { s with is_playing := true, error_state := false, active_media_players := [],
               stop_playback_handle := none, fadeout_volume_handle := none }
    let active := media_players.filter
      (fun p => (play_music_on_player (is_ma_player p) is_youtube_music (attempt_of p)).1)
    if active.isEmpty then
      ⟨{ s1 with active_media_players := active, error_state := true, is_playing := false },
        true, false⟩
    else
      ⟨{ s1 with active_media_players := active }, true, true⟩

/-- Claim C1: a start trigger while `is_playing` is set is a no-op: the
state (flags, active players and every timer handle) is returned exactly
as it was, no player is started, and no verification is scheduled. -/
theorem start_wakeup_music_noop_when_playing (is_ma_player : String → Bool)
    (is_youtube_music : Bool) (attempt_of : String → ℕ → Option (List Char × List Char))
    (media_players : List String) (s : AppState) (h : s.is_playing = true) :
    start_wakeup_music is_ma_player is_youtube_music attempt_of media_players s =
      ⟨s, false, false⟩ := by
  unfold start_wakeup_music
  rw [if_pos h]

/-- Concrete instance of claim C1: a mid-session state with live timers is
returned untouched. -/
theorem start_wakeup_music_noop_witness :
    start_wakeup_music (fun _ => false) false (fun _ _ => none) ["media_player.bedroom"]
      ⟨true, false, ["media_player.bedroom"], none, some 3, some 4, some 5⟩ =
      ⟨⟨true, false, ["media_player.bedroom"], none, some 3, some 4, some 5⟩,
        false, false⟩ :=
  start_wakeup_music_noop_when_playing (fun _ => false) false (fun _ _ => none)
    ["media_player.bedroom"]
    ⟨true, false, ["media_player.bedroom"], none, some 3, some 4, some 5⟩ rfl

/-- Claim C5: when no configured player starts, the wake event aborts with
`error_state` set, `is_playing` cleared and no verification scheduled; when
at least one starts, verification is scheduled and exactly the succeeding
players (in configuration order) form `active_media_players`. -/
theorem start_wakeup_music_abort_or_proceed (is_ma_player : String → Bool)
    (is_youtube_music : Bool) (attempt_of : String → ℕ → Option (List Char × List Char))
    (media_players : List String) (s : AppState) (h : s.is_playing = false) :
    ((∀ p ∈ media_players,
        (play_music_on_player (is_ma_player p) is_youtube_music (attempt_of p)).1 = false) →
      (start_wakeup_music is_ma_player is_youtube_music attempt_of media_players
          s).state.error_state = true ∧
      (start_wakeup_music is_ma_player is_youtube_music attempt_of media_players
          s).state.is_playing = false ∧
      (start_wakeup_music is_ma_player is_youtube_music attempt_of media_players
          s).verification_scheduled = false) ∧
    ((∃ p ∈ media_players,
        (play_music_on_player (is_ma_player p) is_youtube_music (attempt_of p)).1 = true) →
      (start_wakeup_music is_ma_player is_youtube_music attempt_of media_players
          s).verification_scheduled = true ∧
      (start_wakeup_music is_ma_player is_youtube_music attempt_of media_players
          s).state.is_playing = true ∧
      (start_wakeup_music is_ma_player is_youtube_music attempt_of media_players
          s).state.error_state = false ∧
      (start_wakeup_music is_ma_player is_youtube_music attempt_of media_players
          s).state.active_media_players = media_players.filter
        (fun p => (play_music_on_player (is_ma_player p) is_youtube_music
          (attempt_of p)).1)) := by
  constructor
  · intro hall
    have hfilter : media_players.filter
        (fun p => (play_music_on_player (is_ma_player p) is_youtube_music
          (attempt_of p)).1) = [] := by
      rw [List.filter_eq_nil_iff]
      intro p hp
      simp [hall p hp]
    unfold start_wakeup_music
    rw [if_neg (by simp [h])]
    simp only [hfilter]
    simp
  · intro hex
    obtain ⟨p, hp, hps⟩ := hex
    have hmem : p ∈ media_players.filter
        (fun p => (play_music_on_player (is_ma_player p) is_youtube_music
          (attempt_of p)).1) := by
      rw [List.mem_filter]
      exact ⟨hp, hps⟩
    have hne : ¬ (media_players.filter
        (fun p => (play_music_on_player (is_ma_player p) is_youtube_music
          (attempt_of p)).1)).isEmpty = true := by
      intro hempty
      rw [List.isEmpty_iff] at hempty
      rw [hempty] at hmem
      exact List.not_mem_nil p hmem
    unfold start_wakeup_music
    rw [if_neg (by simp [h]), if_neg hne]
    exact ⟨rfl, rfl, rfl, rfl⟩

/-- Concrete instance of claim C5: two players with the starter failing on
the first and succeeding on the second proceed to verification with only
the second player active; two failing players abort. -/
theorem start_wakeup_music_abort_or_proceed_witness :
    ((start_wakeup_music (fun _ => false) false
        (fun p _ => if p = "media_player.a" then some ("E".toList, "boom".toList) else none)
        ["media_player.a", "media_player.b"]
        ⟨false, false, [], none, none, none, none⟩).verification_scheduled = true ∧
      (start_wakeup_music (fun _ => false) false
        (fun p _ => if p = "media_player.a" then some ("E".toList, "boom".toList) else none)
        ["media_player.a", "media_player.b"]
        ⟨false, false, [], none, none, none, none⟩).state.active_media_players =
          ["media_player.b"]) ∧
    ((start_wakeup_music (fun _ => false) false
        (fun _ _ => some ("E".toList, "boom".toList))
        ["media_player.a", "media_player.b"]
        ⟨false, false, [], none, none, none, none⟩).state.error_state = true ∧
      (start_wakeup_music (fun _ => false) false
        (fun _ _ => some ("E".toList, "boom".toList))
        ["media_player.a", "media_player.b"]
        ⟨false, false, [], none, none, none, none⟩).verification_scheduled = false) := by
  constructor
  · have h := (start_wakeup_music_abort_or_proceed (fun _ => false) false
      (fun p _ => if p = "media_player.a" then some ("E".toList, "boom".toList) else none)
      ["media_player.a", "media_player.b"]
      ⟨false, false, [], none, none, none, none⟩ rfl).2
      ⟨"media_player.b", by decide, by decide⟩
    refine ⟨h.1, ?_⟩
    rw [h.2.2.2]
    decide
  · have h := (start_wakeup_music_abort_or_proceed (fun _ => false) false
      (fun _ _ => some ("E".toList, "boom".toList))
      ["media_player.a", "media_player.b"]
      ⟨false, false, [], none, none, none, none⟩ rfl).1
      (fun p hp => rfl)
    exact ⟨h.1, h.2.2⟩

/-! ## Schedule resolver (`get_today_schedule`, lines 461-486) and day
scheduling (`setup_day_schedule`, lines 488-516) -/

/-- Python `s.split(":")`. -/
def splitColon : List Char → List (List Char)
  | [] => [[]]
  | c :: cs =>
    if c = ':' then [] :: splitColon cs
    else
      match splitColon cs with
      | [] => [[c]]
      | part :: parts => (c :: part) :: parts

/-- Python `int(s)` as the source uses it on time fields, modelled for
unsigned decimal strings; anything else raises `ValueError`, which
`get_today_schedule` turns into `None`. -/
def parseNat (s : List Char) : Option ℕ :=
  if s ≠ [] ∧ s.all Char.isDigit then
    some (s.foldl (fun a c => a * 10 + (c.toNat - 48)) 0)
  else none

/-- Python `hour, minute = map(int, s.split(":"))` followed by the range
validation performed by `datetime.replace` (`0 <= hour <= 23`,
`0 <= minute <= 59`); a failure anywhere is the caught exception path. -/
def parse_wall_time (s : List Char) : Option (ℕ × ℕ) :=
  match splitColon s with
  | [hs, ms] =>
    match parseNat hs, parseNat ms with
    | some hour, some minute =>
      if hour ≤ 23 ∧ minute ≤ 59 then some (hour, minute) else none
    | _, _ => none
  | _ => none

/-- One day's raw configuration mapping: the `active` key (Python
`.get("active", False)`), and the optional `start` and `turnoff` time
strings. -/
structure DayConfig where
  active : Bool
  start : Option (List Char)
  turnoff : Option (List Char)

/-- Today's resolved schedule, as seconds from today's midnight (the
source anchors the parsed `HH:MM` to today with zeroed seconds). -/
structure DaySchedule where
  start : ℕ
  turnoff : Option ℕ

/-- Transcription of `get_today_schedule` for today's `day_config`:
inactive days resolve to nothing, a missing `start` key falls back to the
default `"06:20"`, and a parse failure in either time string resolves to
nothing (the caught `ValueError`/`AttributeError`). -/
def get_today_schedule (day_config : DayConfig) : Option DaySchedule :=
  if day_config.active = false then none
  else
    match parse_wall_time (day_config.start.getD ("06:20".toList)) with
    | none => none
    | some (hour, minute) =>
      match day_config.turnoff with
      | none => some ⟨hour * 3600 + minute * 60, none⟩
      | some turnoff_str =>
        match parse_wall_time turnoff_str with
        | none => none
        | some (hour2, minute2) =>
          some ⟨hour * 3600 + minute * 60, some (hour2 * 3600 + minute2 * 60)⟩

/-- The action `setup_day_schedule` takes after cancelling the day timer. -/
inductive DayAction where
  | scheduleStart (delay : ℚ)
  | startNow
  | noop

/-- Transcription of `setup_day_schedule`.  The first component records
that the existing `active_timer`, when present, is cancelled before
anything else (lines 490-493); the second is the chosen action:
suppression wins, then a missing schedule, then the `now`-versus-`start`
comparison with the turnoff-window test.  `now` is in seconds from
today's midnight. -/
def setup_day_schedule (active_timer : Option ℕ) (calendar_exception_cached : Bool)
    (day_config : DayConfig) (now : ℚ) : Bool × DayAction :=
  (active_timer.isSome,
    if calendar_exception_cached then DayAction.noop
    else
      match get_today_schedule day_config with
      | none => DayAction.noop
      | some schedule =>
        if now < (schedule.start : ℚ) then
          DayAction.scheduleStart ((schedule.start : ℚ) - now)
        else
          match schedule.turnoff with
          | some turnoff_time =>
            if now ≥ (turnoff_time : ℚ) then DayAction.noop else DayAction.startNow
          | none => DayAction.startNow)

/-- Claim C6: each day-schedule (re)computation cancels the existing day
timer first; suppression or a missing schedule ends it there; `now <
start` installs a timer for `start - now`; a closed window (`start ≤ now`
and `turnoff ≤ now`) does nothing; otherwise playback starts
immediately. -/
theorem setup_day_schedule_spec (active_timer : Option ℕ)
    (calendar_exception_cached : Bool) (day_config : DayConfig) (now : ℚ) :
    (setup_day_schedule active_timer calendar_exception_cached day_config now).1 =
      active_timer.isSome ∧
    (calendar_exception_cached = true →
      (setup_day_schedule active_timer calendar_exception_cached day_config now).2 =
        DayAction.noop) ∧
    (calendar_exception_cached = false → get_today_schedule day_config = none →
      (setup_day_schedule active_timer calendar_exception_cached day_config now).2 =
        DayAction.noop) ∧
    (calendar_exception_cached = false → ∀ schedule,
      get_today_schedule day_config = some schedule →
      (now < (schedule.start : ℚ) →
        (setup_day_schedule active_timer calendar_exception_cached day_config now).2 =
          DayAction.scheduleStart ((schedule.start : ℚ) - now)) ∧
      ((schedule.start : ℚ) ≤ now → ∀ turnoff_time,
        schedule.turnoff = some turnoff_time → (turnoff_time : ℚ) ≤ now →
        (setup_day_schedule active_timer calendar_exception_cached day_config now).2 =
          DayAction.noop) ∧
      ((schedule.start : ℚ) ≤ now → schedule.turnoff = none →
        (setup_day_schedule active_timer calendar_exception_cached day_config now).2 =
          DayAction.startNow) ∧
      ((schedule.start : ℚ) ≤ now → ∀ turnoff_time,
        schedule.turnoff = some turnoff_time → now < (turnoff_time : ℚ) →
        (setup_day_schedule active_timer calendar_exception_cached day_config now).2 =
          DayAction.startNow)) := by
  refine ⟨rfl, ?_, ?_, ?_⟩
  · intro hcal
    unfold setup_day_schedule
    rw [hcal]
    rfl
  · intro hcal hnone
    unfold setup_day_schedule
    rw [hcal, hnone]
    rfl
  · intro hcal schedule hsched
    refine ⟨?_, ?_, ?_, ?_⟩
    · intro hlt
      unfold setup_day_schedule
      rw [hcal, hsched]
      simp only [Bool.false_eq_true, if_false, if_pos hlt]
    · intro hge turnoff_time hturnoff hle
      unfold setup_day_schedule
      rw [hcal, hsched]
      simp only [Bool.false_eq_true, if_false, if_neg (not_lt.mpr hge), hturnoff,
        if_pos (ge_iff_le.mpr hle)]
    · intro hge hnone
      unfold setup_day_schedule
      rw [hcal, hsched]
      simp only [Bool.false_eq_true, if_false, if_neg (not_lt.mpr hge), hnone]
    · intro hge turnoff_time hturnoff hlt
      unfold setup_day_schedule
      rw [hcal, hsched]
      simp only [Bool.false_eq_true, if_false, if_neg (not_lt.mpr hge), hturnoff,
        if_neg (not_le.mpr hlt)]

/-- Concrete instance of claim C6: `start 06:20`, `turnoff 06:25`,
`now = 07:00` yields no scheduled start; the same schedule at
`now = 06:00` installs a 1200-second timer. -/
theorem setup_day_schedule_witness :
    (setup_day_schedule none false
      ⟨true, some ("06:20".toList), some ("06:25".toList)⟩ 25200).2 = DayAction.noop ∧
    (setup_day_schedule (some 7) false
      ⟨true, some ("06:20".toList), some ("06:25".toList)⟩ 21600).2 =
      DayAction.scheduleStart 1200 := by
  have hs : get_today_schedule ⟨true, some ("06:20".toList), some ("06:25".toList)⟩ =
      some ⟨22800, some 23100⟩ := rfl
  constructor
  · exact (((setup_day_schedule_spec none false
      ⟨true, some ("06:20".toList), some ("06:25".toList)⟩ 25200).2.2.2 rfl
      ⟨22800, some 23100⟩ hs).2.1 (by norm_num) 23100 rfl (by norm_num))
  · have h := ((setup_day_schedule_spec (some 7) false
      ⟨true, some ("06:20".toList), some ("06:25".toList)⟩ 21600).2.2.2 rfl
      ⟨22800, some 23100⟩ hs).1 (by norm_num)
    have e : ((22800 : ℕ) : ℚ) - 21600 = 1200 := by norm_num
    rw [e] at h
    exact h

/-- Claim C10: an active day configuration with no `start` key resolves
successfully, silently substituting the default start time `06:20`
(22800 seconds from midnight). -/
theorem get_today_schedule_default_start (day_config : DayConfig)
    (hactive : day_config.active = true) (hstart : day_config.start = none) :
    (day_config.turnoff = none →
      get_today_schedule day_config = some ⟨6 * 3600 + 20 * 60, none⟩) ∧
    (∀ turnoff_str hour2 minute2, day_config.turnoff = some turnoff_str →
      parse_wall_time turnoff_str = some (hour2, minute2) →
      get_today_schedule day_config =
        some ⟨6 * 3600 + 20 * 60, some (hour2 * 3600 + minute2 * 60)⟩) := by
  have hd : parse_wall_time (day_config.start.getD ("06:20".toList)) = some (6, 20) := by
    rw [hstart]
    rfl
  constructor
  · intro ht
    unfold get_today_schedule
    rw [if_neg (by rw [hactive]; simp), hd, ht]
  · intro turnoff_str hour2 minute2 ht hparse
    unfold get_today_schedule
    rw [if_neg (by rw [hactive]; simp), hd, ht]
    dsimp only
    rw [hparse]

/-- Concrete instance of claim C10: `{active: true, turnoff: "06:25"}`
with no `start` key resolves to a 06:20 start. -/
theorem get_today_schedule_default_start_witness :
    get_today_schedule ⟨true, none, none⟩ = some ⟨6 * 3600 + 20 * 60, none⟩ ∧
    get_today_schedule ⟨true, none, some ("06:25".toList)⟩ =
      some ⟨6 * 3600 + 20 * 60, some (6 * 3600 + 25 * 60)⟩ :=
  ⟨(get_today_schedule_default_start ⟨true, none, none⟩ rfl rfl).1 rfl,
   (get_today_schedule_default_start ⟨true, none, some ("06:25".toList)⟩ rfl rfl).2
     ("06:25".toList) 6 25 rfl rfl⟩
